import Mathlib

/-
  Verification model of the scroll-driven 3D experience engine
  (src/js/experience.js and src/js/main.js): a shallow embedding over
  exact rationals of the GLSL noise kernel, the particle-buffer
  generator, the engine state, the scroll/pointer handlers, the
  scroll-trigger callbacks, the render tick and the teardown path.
  Decimal literals from the source are read as exact rationals
  (real-arithmetic semantics of the floating-point source).
-/

set_option allowUnsafeReducibility true
set_option maxRecDepth 8000000

attribute [local semireducible] Rat.add Rat.mul Rat.div Rat.sub Rat.neg Rat.inv

namespace Experience

structure V2 where
  x : ℚ
  y : ℚ
deriving DecidableEq, Repr

structure V3 where
  x : ℚ
  y : ℚ
  z : ℚ
deriving DecidableEq, Repr

structure V4 where
  x : ℚ
  y : ℚ
  z : ℚ
  w : ℚ
deriving DecidableEq, Repr

instance : Add V3 := ⟨fun a b => ⟨a.x + b.x, a.y + b.y, a.z + b.z⟩⟩

instance : Sub V3 := ⟨fun a b => ⟨a.x - b.x, a.y - b.y, a.z - b.z⟩⟩

instance : Add V4 := ⟨fun a b => ⟨a.x + b.x, a.y + b.y, a.z + b.z, a.w + b.w⟩⟩

instance : Sub V4 := ⟨fun a b => ⟨a.x - b.x, a.y - b.y, a.z - b.z, a.w - b.w⟩⟩

def V3.dot (a b : V3) : ℚ := a.x * b.x + a.y * b.y + a.z * b.z

def V4.dot (a b : V4) : ℚ := a.x * b.x + a.y * b.y + a.z * b.z + a.w * b.w

def V3.scale (a : V3) (s : ℚ) : V3 := ⟨a.x * s, a.y * s, a.z * s⟩

def V4.scale (a : V4) (s : ℚ) : V4 := ⟨a.x * s, a.y * s, a.z * s, a.w * s⟩

def V3.addS (a : V3) (s : ℚ) : V3 := ⟨a.x + s, a.y + s, a.z + s⟩

def V4.addS (a : V4) (s : ℚ) : V4 := ⟨a.x + s, a.y + s, a.z + s, a.w + s⟩

def qfloor (q : ℚ) : ℚ := ((⌊q⌋ : ℤ) : ℚ)

def V3.floorV (a : V3) : V3 := ⟨qfloor a.x, qfloor a.y, qfloor a.z⟩

def V4.floorV (a : V4) : V4 := ⟨qfloor a.x, qfloor a.y, qfloor a.z, qfloor a.w⟩

/-- GLSL `step(edge, x)`: 0.0 when `x < edge`, else 1.0. -/
def gstep (edge x : ℚ) : ℚ := if x < edge then 0 else 1

def V3.stepV (edge x : V3) : V3 := ⟨gstep edge.x x.x, gstep edge.y x.y, gstep edge.z x.z⟩

def V4.stepV (edge x : V4) : V4 := ⟨gstep edge.x x.x, gstep edge.y x.y, gstep edge.z x.z, gstep edge.w x.w⟩

def V3.minV (a b : V3) : V3 := ⟨min a.x b.x, min a.y b.y, min a.z b.z⟩

def V3.maxV (a b : V3) : V3 := ⟨max a.x b.x, max a.y b.y, max a.z b.z⟩

/-- GLSL `mod289` as in the particle vertex shader:
`x - floor(x * (1.0 / 289.0)) * 289.0`, componentwise. -/
def mod289 (x : ℚ) : ℚ := x - qfloor (x * (1 / 289)) * 289

def V3.mod289V (a : V3) : V3 := ⟨mod289 a.x, mod289 a.y, mod289 a.z⟩

def V4.mod289V (a : V4) : V4 := ⟨mod289 a.x, mod289 a.y, mod289 a.z, mod289 a.w⟩

/-- GLSL `permute4(x) = mod289v4(((x * 34.0) + 1.0) * x)`. -/
def permute4 (v : V4) : V4 :=
  V4.mod289V ⟨((v.x * 34) + 1) * v.x, ((v.y * 34) + 1) * v.y, ((v.z * 34) + 1) * v.z, ((v.w * 34) + 1) * v.w⟩

/-- GLSL `taylorInvSqrt4(r) = 1.79284291400159 - 0.85373472095314 * r`. -/
def taylorInvSqrt4 (r : V4) : V4 :=
  let A : ℚ := 179284291400159 / 100000000000000
  let B : ℚ := 85373472095314 / 100000000000000
  ⟨A - B * r.x, A - B * r.y, A - B * r.z, A - B * r.w⟩

/-- The simplex-noise function `snoise3` of the particle vertex shader
(`_getParticleVertexShader`), ported line by line; the hero vertex shader
(`_getTorusVertexShader`) contains a textually identical copy named `snoise`.
The float literal `0.142857142857` is kept as the exact rational it denotes. -/
def snoise3 (v : V3) : ℚ :=
  let Cx : ℚ := 1 / 6
  let Cy : ℚ := 1 / 3
  let D : V4 := ⟨0, 1 / 2, 1, 2⟩
  let i0 := V3.floorV (v.addS (V3.dot v ⟨Cy, Cy, Cy⟩))
  let x0 := (v - i0).addS (V3.dot i0 ⟨Cx, Cx, Cx⟩)
  let g := V3.stepV ⟨x0.y, x0.z, x0.x⟩ x0
  let l : V3 := ⟨1 - g.x, 1 - g.y, 1 - g.z⟩
  let i1 := V3.minV g ⟨l.z, l.x, l.y⟩
  let i2 := V3.maxV g ⟨l.z, l.x, l.y⟩
  let x1 := (x0 - i1).addS Cx
  let x2 := (x0 - i2).addS Cy
  let x3 := x0 - ⟨D.y, D.y, D.y⟩
  let i0 := i0.mod289V
  let t0 := permute4 ((⟨0, i1.z, i2.z, 1⟩ : V4).addS i0.z)
  let t1 := permute4 ((t0.addS i0.y) + ⟨0, i1.y, i2.y, 1⟩)
  let p := permute4 ((t1.addS i0.x) + ⟨0, i1.x, i2.x, 1⟩)
  let n : ℚ := 142857142857 / 1000000000000
  let ns : V3 := ⟨n * D.w - D.x, n * D.y - D.z, n * D.z - D.x⟩
  let j := p - (V4.floorV (p.scale (ns.z * ns.z))).scale 49
  let x4 := V4.floorV (j.scale ns.z)
  let y4 := V4.floorV (j - x4.scale 7)
  let x := (x4.scale ns.x).addS ns.y
  let y := (y4.scale ns.x).addS ns.y
  let h : V4 := ⟨1 - |x.x| - |y.x|, 1 - |x.y| - |y.y|, 1 - |x.z| - |y.z|, 1 - |x.w| - |y.w|⟩
  let b0 : V4 := ⟨x.x, x.y, y.x, y.y⟩
  let b1 : V4 := ⟨x.z, x.w, y.z, y.w⟩
  let s0 := ((V4.floorV b0).scale 2).addS 1
  let s1 := ((V4.floorV b1).scale 2).addS 1
  let sh := (V4.stepV h ⟨0, 0, 0, 0⟩).scale (-1)
  let a0 : V4 := ⟨b0.x + s0.x * sh.x, b0.z + s0.z * sh.x, b0.y + s0.y * sh.y, b0.w + s0.w * sh.y⟩
  let a1 : V4 := ⟨b1.x + s1.x * sh.z, b1.z + s1.z * sh.z, b1.y + s1.y * sh.w, b1.w + s1.w * sh.w⟩
  let p0 : V3 := ⟨a0.x, a0.y, h.x⟩
  let p1 : V3 := ⟨a0.z, a0.w, h.y⟩
  let p2 : V3 := ⟨a1.x, a1.y, h.z⟩
  let p3 : V3 := ⟨a1.z, a1.w, h.w⟩
  let norm := taylorInvSqrt4 ⟨V3.dot p0 p0, V3.dot p1 p1, V3.dot p2 p2, V3.dot p3 p3⟩
  let p0 := p0.scale norm.x
  let p1 := p1.scale norm.y
  let p2 := p2.scale norm.z
  let p3 := p3.scale norm.w
  let m : V4 := ⟨max (3 / 5 - V3.dot x0 x0) 0, max (3 / 5 - V3.dot x1 x1) 0,
                 max (3 / 5 - V3.dot x2 x2) 0, max (3 / 5 - V3.dot x3 x3) 0⟩
  let m : V4 := ⟨m.x * m.x, m.y * m.y, m.z * m.z, m.w * m.w⟩
  42 * V4.dot ⟨m.x * m.x, m.y * m.y, m.z * m.z, m.w * m.w⟩
        ⟨V3.dot p0 x0, V3.dot p1 x1, V3.dot p2 x2, V3.dot p3 x3⟩

/-- The `curlNoise` function of the particle vertex shader: central
differences of `snoise3` with `eps = 0.01`, assembled as
`(dn/dy, dn/dz, dn/dx)`. -/
def curlNoise (p : V3) : V3 :=
  let eps : ℚ := 1 / 100
  let cx := (snoise3 (p + ⟨0, eps, 0⟩) - snoise3 (p - ⟨0, eps, 0⟩)) / (2 * eps)
  let cy := (snoise3 (p + ⟨0, 0, eps⟩) - snoise3 (p - ⟨0, 0, eps⟩)) / (2 * eps)
  let cz := (snoise3 (p + ⟨eps, 0, 0⟩) - snoise3 (p - ⟨eps, 0, 0⟩)) / (2 * eps)
  ⟨cx, cy, cz⟩

/-- Central difference of `snoise3` along the X axis with the shader's
`eps = 0.01`. -/
def dXcentral (p : V3) : ℚ :=
  (snoise3 (p + ⟨1 / 100, 0, 0⟩) - snoise3 (p - ⟨1 / 100, 0, 0⟩)) / (2 * (1 / 100))

/-- Central difference of `snoise3` along the Y axis with `eps = 0.01`. -/
def dYcentral (p : V3) : ℚ :=
  (snoise3 (p + ⟨0, 1 / 100, 0⟩) - snoise3 (p - ⟨0, 1 / 100, 0⟩)) / (2 * (1 / 100))

/-- Central difference of `snoise3` along the Z axis with `eps = 0.01`. -/
def dZcentral (p : V3) : ℚ :=
  (snoise3 (p + ⟨0, 0, 1 / 100⟩) - snoise3 (p - ⟨0, 0, 1 / 100⟩)) / (2 * (1 / 100))

/-- Finite-difference estimate of the divergence of the `curlNoise` field,
with the same step `0.01` as the shader's central differences. -/
def divergenceEstimate (p : V3) : ℚ :=
  let h : ℚ := 1 / 100
  ((curlNoise (p + ⟨h, 0, 0⟩)).x - (curlNoise (p - ⟨h, 0, 0⟩)).x) / (2 * h)
    + ((curlNoise (p + ⟨0, h, 0⟩)).y - (curlNoise (p - ⟨0, h, 0⟩)).y) / (2 * h)
    + ((curlNoise (p + ⟨0, 0, h⟩)).z - (curlNoise (p - ⟨0, 0, h⟩)).z) / (2 * h)

/-- A sampled grid of evaluation points for the divergence test, spaced
0.1 apart and offset from the lattice. -/
def sampleGrid : List V3 :=
  (List.range 12).flatMap fun a =>
    (List.range 4).flatMap fun b =>
      (List.range 4).map fun c =>
        ⟨1 / 4 + (a : ℚ) / 10, 1 / 4 + (b : ℚ) / 10, 1 / 4 + (c : ℚ) / 10⟩

/-- Exact value of the IEEE-754 double `Math.PI`. -/
def mathPI : ℚ := 884279719003555 / 281474976710656

inductive ShaderKind
  | torus
  | wave
  | particle
deriving DecidableEq, Repr

/-- The material installed on a mesh: the `MeshStandardMaterial` /
`PointsMaterial` created in `_initGeometries` (tagged by its color), or a
`ShaderMaterial` as would be installed by `_initShaders`. -/
inductive Material
  | standard (color : ℕ)
  | pointsMat (color : ℕ)
  | shader (kind : ShaderKind)
deriving DecidableEq, Repr

structure MeshState where
  position : V3
  rotation : V3
  scale : V3
  material : Material
deriving DecidableEq, Repr

/-- The meshes stored in `this.meshes` by `_initGeometries`:
`hero`, `features[0..2]`, `showcase`, `bars[0..3]`, `contactPoints`,
`contactSphere`. -/
structure Meshes where
  hero : MeshState
  feature0 : MeshState
  feature1 : MeshState
  feature2 : MeshState
  showcase : MeshState
  bar0 : MeshState
  bar1 : MeshState
  bar2 : MeshState
  bar3 : MeshState
  contactPoints : MeshState
  contactSphere : MeshState
deriving DecidableEq, Repr

inductive MeshKey
  | hero
  | feature0
  | feature1
  | feature2
  | showcase
  | bar0
  | bar1
  | bar2
  | bar3
  | contactPoints
  | contactSphere
deriving DecidableEq, Repr

def Meshes.update (ms : Meshes) (k : MeshKey) (f : MeshState → MeshState) : Meshes :=
  match k with
  | .hero => { ms with hero := f ms.hero }
  | .feature0 => { ms with feature0 := f ms.feature0 }
  | .feature1 => { ms with feature1 := f ms.feature1 }
  | .feature2 => { ms with feature2 := f ms.feature2 }
  | .showcase => { ms with showcase := f ms.showcase }
  | .bar0 => { ms with bar0 := f ms.bar0 }
  | .bar1 => { ms with bar1 := f ms.bar1 }
  | .bar2 => { ms with bar2 := f ms.bar2 }
  | .bar3 => { ms with bar3 := f ms.bar3 }
  | .contactPoints => { ms with contactPoints := f ms.contactPoints }
  | .contactSphere => { ms with contactSphere := f ms.contactSphere }

def Meshes.materials (ms : Meshes) : List Material :=
  [ms.hero.material, ms.feature0.material, ms.feature1.material, ms.feature2.material,
   ms.showcase.material, ms.bar0.material, ms.bar1.material, ms.bar2.material,
   ms.bar3.material, ms.contactPoints.material, ms.contactSphere.material]

/-- The uniforms object of the hero torus `ShaderMaterial`. -/
structure TorusUniforms where
  uTime : ℚ
  uScrollProgress : ℚ
deriving DecidableEq, Repr

/-- The uniforms object of the showcase wave `ShaderMaterial`. -/
structure WaveUniforms where
  uTime : ℚ
  uAmplitude : ℚ
  uScrollProgress : ℚ
deriving DecidableEq, Repr

/-- The uniforms object of the particle `ShaderMaterial`. -/
structure ParticleUniforms where
  uTime : ℚ
  uScrollProgress : ℚ
  uMouse : V2
  uSize : ℚ
deriving DecidableEq, Repr

/-- A uniform value: `uOffset` starts as the number `0.003` and `_tick`
overwrites it with a two-component vector via `.value.set(x, y)`. -/
inductive UniformVal
  | num (q : ℚ)
  | vec2 (v : V2)
deriving DecidableEq, Repr

structure ChromaticPass where
  uOffset : UniformVal
deriving DecidableEq, Repr

/-- The `EffectComposer` with its three passes, in order. -/
structure Composer where
  renderPass : Bool
  bloomPass : Bool
  chromaticPass : Bool
deriving DecidableEq, Repr

inductive EventKind
  | resize
  | mousemove
  | scroll
deriving DecidableEq, Repr

/-- The window's listener registry: pairs of event kind and the identity of
the registered handler function object. -/
structure EventTarget where
  regs : List (EventKind × ℕ)
deriving DecidableEq, Repr

def EventTarget.removeListener (w : EventTarget) (k : EventKind) (handler : Option ℕ) : EventTarget :=
  match handler with
  | none => w
  | some i => ⟨w.regs.filter fun r => !(decide (r.1 = k ∧ r.2 = i))⟩

/-- The ScrollTrigger instances registered by `_initScrollAnimations`.
`featuresReveal` has only an `onEnter` handler (no `onUpdate`). -/
inductive Trigger
  | cameraScroll
  | featuresReveal (i : ℕ)
  | showcaseWave
  | contactScale
deriving DecidableEq, Repr

/-- The whole engine state: the fields of the `Experience` instance. Fields
such as `torusKnot`, `heroMesh`, `featuresMeshes`, `waveMesh`, `statsBars`,
`contactSphere`, `parallaxGroups`, `heroShaderMaterial`,
`waveShaderMaterial` and `particleShaderMaterial` are read by the source but
never assigned; they are `Option`-typed and stay `none` (JS `undefined`). -/
structure EngineState where
  canvas : ℕ
  width : ℚ
  height : ℚ
  mouse : V2
  time : ℚ
  scrollProgress : ℚ
  currentSection : ℤ
  scrollY : ℚ
  barHeights : List ℚ
  waveAmplitude : ℚ
  contactSphereScale : ℚ
  meshes : Meshes
  groupYs : List ℚ
  cameraPos : V3
  cameraAspect : ℚ
  mouseLightPos : V3
  particleSystem : Option V3
  particleUniforms : ParticleUniforms
  torusUniforms : Option TorusUniforms
  waveUniforms : Option WaveUniforms
  torusKnot : Option MeshKey
  showcasePlane : Option MeshKey
  heroMesh : Option MeshKey
  featuresMeshes : Option (List MeshKey)
  waveMesh : Option MeshKey
  statsBars : Option (List MeshKey)
  contactSphere : Option MeshKey
  parallaxGroups : Option (List ℕ)
  heroShaderMaterial : Option TorusUniforms
  waveShaderMaterial : Option WaveUniforms
  particleShaderMaterial : Option ParticleUniforms
  composer : Option Composer
  chromaticAberrationPass : Option ChromaticPass
  scrollVelocity : Option ℚ
  prevScrollY : Option ℚ
  animFrameId : Option ℕ
  nextFrameId : ℕ
  window : EventTarget
  scrollTriggers : List Trigger
  rendererDisposed : Bool
deriving DecidableEq, Repr

/-- The meshes created by `_initGeometries` (positions are local to their
section group; the groups sit at y = 0, -10, -20, -30, -40). -/
def initialMeshes : Meshes where
  hero := ⟨⟨0, 0, 0⟩, ⟨0, 0, 0⟩, ⟨1, 1, 1⟩, .standard 0x6633cc⟩
  feature0 := ⟨⟨-5/2, 0, 0⟩, ⟨0, 0, 0⟩, ⟨1, 1, 1⟩, .standard 0xff6b6b⟩
  feature1 := ⟨⟨0, 0, 0⟩, ⟨0, 0, 0⟩, ⟨1, 1, 1⟩, .standard 0x4ecdc4⟩
  feature2 := ⟨⟨5/2, 0, 0⟩, ⟨0, 0, 0⟩, ⟨1, 1, 1⟩, .standard 0x45b7d1⟩
  showcase := ⟨⟨0, 0, 0⟩, ⟨-mathPI / 3, 0, 0⟩, ⟨1, 1, 1⟩, .standard 0x9966ff⟩
  bar0 := ⟨⟨-9/4, 0, 0⟩, ⟨0, 0, 0⟩, ⟨1, 1, 1⟩, .standard 0xff6b6b⟩
  bar1 := ⟨⟨-3/4, 0, 0⟩, ⟨0, 0, 0⟩, ⟨1, 1, 1⟩, .standard 0x4ecdc4⟩
  bar2 := ⟨⟨3/4, 0, 0⟩, ⟨0, 0, 0⟩, ⟨1, 1, 1⟩, .standard 0xffd93d⟩
  bar3 := ⟨⟨9/4, 0, 0⟩, ⟨0, 0, 0⟩, ⟨1, 1, 1⟩, .standard 0x6c5ce7⟩
  contactPoints := ⟨⟨0, 0, 0⟩, ⟨0, 0, 0⟩, ⟨1, 1, 1⟩, .pointsMat 0xffffff⟩
  contactSphere := ⟨⟨0, 0, 0⟩, ⟨0, 0, 0⟩, ⟨1, 1, 1⟩, .standard 0x6c5ce7⟩

/-- Engine state after the constructor has run `_initRenderer` through
`_initEventListeners` but before the initial `_tick()` call and the deferred
`_initScrollAnimations`. The three listener registrations get handler
identities 0, 1, 2 for the three arrow-function closures. In
`_initPostProcessing` the dynamic imports of the four post-processing
modules use bare specifiers and, as analysed for C1/C5, never produce a
composer, so `composer` stays `none`. -/
def initState (canvas : ℕ) (w h : ℚ) : EngineState where
  canvas := canvas
  width := w
  height := h
  mouse := ⟨0, 0⟩
  time := 0
  scrollProgress := 0
  currentSection := 0
  scrollY := 0
  barHeights := [0, 0, 0, 0]
  waveAmplitude := 0
  contactSphereScale := 1
  meshes := initialMeshes
  groupYs := [0, -10, -20, -30, -40]
  cameraPos := ⟨0, 0, 5⟩
  cameraAspect := w / h
  mouseLightPos := ⟨0, 0, 0⟩
  particleSystem := some ⟨0, 0, 0⟩
  particleUniforms := ⟨0, 0, ⟨0, 0⟩, 2⟩
  torusUniforms := none
  waveUniforms := none
  torusKnot := none
  showcasePlane := none
  heroMesh := none
  featuresMeshes := none
  waveMesh := none
  statsBars := none
  contactSphere := none
  parallaxGroups := none
  heroShaderMaterial := none
  waveShaderMaterial := none
  particleShaderMaterial := none
  composer := none
  chromaticAberrationPass := none
  scrollVelocity := none
  prevScrollY := none
  animFrameId := none
  nextFrameId := 0
  window := ⟨[(.resize, 0), (.mousemove, 1), (.scroll, 2)]⟩
  scrollTriggers := []
  rendererDisposed := false

/-- Update only the mesh dictionary of the state (all mesh mutations in the
source go through `this.meshes`-stored objects). -/
def overMeshes (g : Meshes → Meshes) (s : EngineState) : EngineState :=
  { s with meshes := g s.meshes }

/-- `_initShaders`: returns immediately unless both `this.torusKnot` and
`this.showcasePlane` are set (they never are); otherwise it would create
the two uniforms objects and install the two `ShaderMaterial`s. -/
def initShaders (s : EngineState) : EngineState :=
  if s.torusKnot.isNone || s.showcasePlane.isNone then s
  else
    let s1 := { s with torusUniforms := some ⟨0, 0⟩ }
    let s2 :=
      match s1.torusKnot with
      | some k => { s1 with meshes := s1.meshes.update k fun m => { m with material := .shader .torus } }
      | none => s1
    let s3 := { s2 with waveUniforms := some ⟨0, 1/2, 0⟩ }
    match s3.showcasePlane with
    | some k => { s3 with meshes := s3.meshes.update k fun m => { m with material := .shader .wave } }
    | none => s3

/-- Availability of the four dynamically imported post-processing modules. -/
structure PostModules where
  effectComposer : Bool
  renderPass : Bool
  unrealBloomPass : Bool
  shaderPass : Bool
deriving DecidableEq, Repr

/-- `_initPostProcessing` with its intended dynamic-import semantics (the
method as written uses `await` in a non-async method, see `moduleParses`):
when any of the four imports fails its `.catch` yields `null`, the method
logs `Post processing modules not available` and returns without creating
the composer. The returned Boolean records whether that warning was logged. -/
def initPostProcessing (mods : PostModules) (s : EngineState) : EngineState × Bool :=
  if !(mods.effectComposer && mods.renderPass && mods.unrealBloomPass && mods.shaderPass) then
    (s, true)
  else
    ({ s with composer := some ⟨true, true, true⟩,
              chromaticAberrationPass := some ⟨.num (3 / 1000)⟩ }, false)

/-- `gsap.utils.interpolate` on numbers: linear interpolation. -/
def gsapInterpolate (a b t : ℚ) : ℚ := a + (b - a) * t

/-- `_initScrollAnimations`: the hero tween and the features / stats /
parallax registrations are all guarded on fields that are never assigned
(`heroMesh`, `featuresMeshes`, `statsBars`, `parallaxGroups`), so only the
camera, showcase and contact triggers are registered. The dead branches
mirror the guards; the stats-timeline branch (a scrubbed GSAP timeline over
`barHeights`) can never run because `statsBars` is never `some`. -/
def initScrollAnimations (s : EngineState) : EngineState :=
  let s : EngineState :=
    match s.heroMesh with
    | some k => overMeshes (fun ms => ms.update k fun m => { m with scale := ⟨0, 0, 0⟩ }) s
    | none => s
  let s := { s with scrollTriggers := s.scrollTriggers ++ [Trigger.cameraScroll] }
  let s : EngineState :=
    match s.featuresMeshes with
    | some ks =>
      if 3 ≤ ks.length then
        let offs : List V3 := [⟨-5, 0, 0⟩, ⟨0, 3, 0⟩, ⟨5, 0, 0⟩]
        let s1 := (ks.zip offs).foldl
          (fun (st : EngineState) kv => overMeshes (fun ms => ms.update kv.1 fun m => { m with position := m.position + kv.2 }) st) s
        { s1 with scrollTriggers := s1.scrollTriggers ++ (List.range ks.length).map Trigger.featuresReveal }
      else s
    | none => s
  let s := { s with scrollTriggers := s.scrollTriggers ++ [Trigger.showcaseWave] }
  let s : EngineState :=
    match s.statsBars with
    | some _ => s
    | none => s
  let s := { s with contactSphereScale := 1,
                    scrollTriggers := s.scrollTriggers ++ [Trigger.contactScale] }
  match s.parallaxGroups with
  | some _ => s
  | none => s

/-- The showcase trigger's `onUpdate`: ramps the wave amplitude 0 to 0.5
over the first half of the trigger window and back down over the second. -/
def waveAmplitudeAt (p : ℚ) : ℚ :=
  if p < 1/2 then gsapInterpolate 0 (1/2) (p * 2)
  else gsapInterpolate (1/2) 0 ((p - 1/2) * 2)

/-- The contact trigger's `onUpdate`: `1 + progress * 1.5`. -/
def contactScaleAt (p : ℚ) : ℚ := 1 + p * (3/2)

/-- The `onUpdate` callback of each registered ScrollTrigger as a function of
that trigger's current progress `p`. The features triggers define no
`onUpdate` (only `onEnter`), so scrubbing them changes nothing. -/
def applyTrigger (t : Trigger) (p : ℚ) (s : EngineState) : EngineState :=
  match t with
  | .cameraScroll =>
    let prevY := s.prevScrollY.getD 0
    { s with scrollProgress := p,
             scrollVelocity := some (p - prevY),
             prevScrollY := some p,
             cameraPos := ⟨s.cameraPos.x, p * (-40), s.cameraPos.z⟩ }
  | .featuresReveal _ => s
  | .showcaseWave => { s with waveAmplitude := waveAmplitudeAt p }
  | .contactScale => { s with contactSphereScale := contactScaleAt p }

/-- Scrub all registered triggers to progress `p` (each trigger's `onUpdate`
fires with the current progress). -/
def foldTriggers (l : List Trigger) (p : ℚ) (s : EngineState) : EngineState :=
  l.foldl (fun st t => applyTrigger t p st) s

def applyProgress (p : ℚ) (s : EngineState) : EngineState :=
  foldTriggers s.scrollTriggers p s

def driveSequence (ps : List ℚ) (s : EngineState) : EngineState :=
  ps.foldl (fun st p => applyProgress p st) s

/-- The projection the reversibility property talks about: wave amplitude,
the four bar heights and the contact sphere scale. -/
def scrubTargets (s : EngineState) : ℚ × List ℚ × ℚ :=
  (s.waveAmplitude, s.barHeights, s.contactSphereScale)

/-- The window `scroll` listener from `_initEventListeners`: `scrollHeight`
is `document.documentElement.scrollHeight`, `innerHeight` is
`window.innerHeight`. -/
def onScroll (scrollY innerHeight scrollHeight : ℚ) (s : EngineState) : EngineState :=
  let maxScroll := scrollHeight - innerHeight
  { s with scrollY := scrollY,
           scrollProgress := if 0 < maxScroll then scrollY / maxScroll else 0,
           currentSection := ⌊scrollY / s.height⌋ }

/-- The window `mousemove` listener: normalises client coordinates to
[-1, 1] each axis. -/
def onMouseMove (clientX clientY : ℚ) (s : EngineState) : EngineState :=
  { s with mouse := ⟨clientX / s.width * 2 - 1, -(clientY / s.height) * 2 + 1⟩ }

/-- `_updateCamera`: exponential damping of camera X toward
`mouse.x * 0.5` and of camera Z toward `10 + mouse.y * -0.5`, factor 0.05.
The `!this.camera || !this.mouse` guard can never fire (both are created in
the constructor). -/
def updateCamera (s : EngineState) : EngineState :=
  { s with cameraPos := ⟨
      s.cameraPos.x + (s.mouse.x * (1/2) - s.cameraPos.x) * (1/20),
      s.cameraPos.y,
      s.cameraPos.z + (10 + s.mouse.y * (-(1/2)) - s.cameraPos.z) * (1/20)⟩ }

/-- `_updateMouseLight`: damping of the point light toward
`(mouse.x * 8, mouse.y * 8, 5)`, factor 0.08. -/
def updateMouseLight (s : EngineState) : EngineState :=
  let targetX := s.mouse.x * 8
  let targetY := s.mouse.y * 8
  let targetZ : ℚ := 5
  { s with mouseLightPos := ⟨
      s.mouseLightPos.x + (targetX - s.mouseLightPos.x) * (2/25),
      s.mouseLightPos.y + (targetY - s.mouseLightPos.y) * (2/25),
      s.mouseLightPos.z + (targetZ - s.mouseLightPos.z) * (2/25)⟩ }

/-- `_updateOnScroll`: all three blocks are guarded on the never-assigned
fields `waveMesh`, `contactSphere` and `statsBars`. The `waveMesh` branch
(dead) would rewrite the plane's vertex buffer; the JS `|| 1` and `|| 0`
defaults read falsy numbers (0) as the default. -/
def updateOnScroll (s : EngineState) : EngineState :=
  let s : EngineState :=
    match s.waveMesh with
    | some _ => s
    | none => s
  let s : EngineState :=
    match s.contactSphere with
    | some k =>
      let sc := if s.contactSphereScale = 0 then 1 else s.contactSphereScale
      overMeshes (fun ms => ms.update k fun m => { m with scale := ⟨sc, sc, sc⟩ }) s
    | none => s
  match s.statsBars with
  | some ks =>
    ks.enum.foldl
      (fun (st : EngineState) ik =>
        overMeshes (fun ms => ms.update ik.2 fun m =>
          { m with scale := ⟨m.scale.x, max (1/1000) (s.barHeights.getD ik.1 0), m.scale.z⟩ }) st) s
  | none => s

/-- `_updateParticles(time, delta)`: rotates the particle system and, when
`this.particleShaderMaterial` is set (it never is), pushes time, scroll
progress and mouse into its uniforms. -/
def updateParticles (time delta : ℚ) (s : EngineState) : EngineState :=
  let s : EngineState :=
    match s.particleSystem with
    | some rot => { s with particleSystem := some ⟨rot.x + delta * (1/50), rot.y + delta * (1/20), rot.z⟩ }
    | none => s
  match s.particleShaderMaterial with
  | some u =>
    let u2 : ParticleUniforms := { u with uTime := time, uScrollProgress := s.scrollProgress, uMouse := s.mouse }
    { s with particleShaderMaterial := some u2 }
  | none => s

/-- The `// Rotate hero torus knot` block of `_tick`: guarded on the never
assigned `this.heroMesh`. -/
def rotateHero (t : ℚ) (s : EngineState) : EngineState :=
  match s.heroMesh with
  | some k => overMeshes (fun ms => ms.update k fun m =>
      { m with rotation := ⟨t * (9/50), t * (3/25), m.rotation.z⟩ }) s
  | none => s

/-- The `// Rotate features icosahedrons` block of `_tick`: guarded on the
never assigned `this.featuresMeshes`. -/
def rotateFeatures (delta : ℚ) (s : EngineState) : EngineState :=
  match s.featuresMeshes with
  | some ks =>
    ks.enum.foldl
      (fun (st : EngineState) ik =>
        overMeshes (fun ms => ms.update ik.2 fun m =>
          { m with rotation := ⟨m.rotation.x + delta * (3/10 + (ik.1 : ℚ) * (7/100)),
                                m.rotation.y + delta * (1/5 + (ik.1 : ℚ) * (1/20)),
                                m.rotation.z⟩ }) st) s
  | none => s

/-- The `// Rotate contact sphere` block of `_tick`: guarded on the never
assigned `this.contactSphere`. -/
def rotateContactSphere (delta : ℚ) (s : EngineState) : EngineState :=
  match s.contactSphere with
  | some k => overMeshes (fun ms => ms.update k fun m =>
      { m with rotation := ⟨m.rotation.x + delta * (3/20), m.rotation.y + delta * (2/5), m.rotation.z⟩ }) s
  | none => s

/-- The `// Update hero shader uniforms` block of `_tick`: guarded on the
never assigned `this.heroShaderMaterial`. -/
def updateHeroUniforms (t : ℚ) (s : EngineState) : EngineState :=
  match s.heroShaderMaterial with
  | some u => { s with heroShaderMaterial := some ({ u with uTime := t }) }
  | none => s

/-- The `// Update wave shader uniforms` block of `_tick`: guarded on the
never assigned `this.waveShaderMaterial`. -/
def updateWaveUniforms (t : ℚ) (s : EngineState) : EngineState :=
  match s.waveShaderMaterial with
  | some u => { s with waveShaderMaterial := some ({ u with uTime := t, uAmplitude := s.waveAmplitude }) }
  | none => s

/-- The `// Chromatic aberration offset based on scroll velocity` block of
`_tick`. -/
def updateChromatic (s : EngineState) : EngineState :=
  match s.chromaticAberrationPass with
  | some _ =>
    let vel := |s.scrollVelocity.getD 0|
    { s with chromaticAberrationPass := some ⟨.vec2 ⟨vel * (1/100), vel * (1/100)⟩⟩ }
  | none => s

/-- One execution of the `_tick` body, stage by stage in source order. The
`requestAnimationFrame` self-rescheduling is modelled by storing a fresh
frame id; `delta` is the clock delta for this frame. -/
def tick (delta : ℚ) (s : EngineState) : EngineState :=
  let s := { s with animFrameId := some s.nextFrameId, nextFrameId := s.nextFrameId + 1 }
  let s := { s with time := s.time + delta }
  let t := s.time
  let s := updateCamera s
  let s := updateMouseLight s
  let s := rotateHero t s
  let s := rotateFeatures delta s
  let s := rotateContactSphere delta s
  let s := updateOnScroll s
  let s := updateParticles t delta s
  let s := updateHeroUniforms t s
  let s := updateWaveUniforms t s
  updateChromatic s

/-- The final lines of `_tick`: the frame is rendered only through
`this.composer` (`if (this.composer) this.composer.render()`); there is no
fallback `renderer.render` call. -/
def tickRenders (s : EngineState) : Bool := s.composer.isSome

/-- The identity of the fresh function object created by
`this._onResize.bind(this)` inside `destroy`: a new object, never equal to
any registered handler. -/
def freshBoundId (s : EngineState) : ℕ := (s.window.regs.map Prod.snd).foldl max 0 + 1

/-- `destroy()`: cancels the scheduled frame, attempts to remove the resize
listener with a fresh `.bind` wrapper and the mousemove listener with the
undefined `this._onMouseMove`, never touches the scroll listener, kills all
ScrollTriggers, and disposes renderer / composer / scene resources. -/
def destroy (s : EngineState) : EngineState :=
  let s : EngineState :=
    match s.animFrameId with
    | some _ => { s with animFrameId := none }
    | none => s
  let s := { s with window := s.window.removeListener .resize (some (freshBoundId s)) }
  let s := { s with window := s.window.removeListener .mousemove none }
  let s := { s with scrollTriggers := [] }
  { s with rendererDisposed := true }

/-- The state reached by `new Experience(canvas)` under the intended
semantics: constructor body, the initial `_tick()` (first clock delta 0),
then the deferred `_initScrollAnimations`. -/
def constructedState (canvas : ℕ) (w h : ℚ) : EngineState :=
  initScrollAnimations (tick 0 (initShaders (initState canvas w h)))

/-- A method declaration of the `Experience` class: whether it is declared
`async` and whether its body contains an `await` expression. -/
structure JsMethodDecl where
  mname : String
  isAsync : Bool
  hasAwait : Bool
deriving DecidableEq, Repr

/-- The methods of the `Experience` class in `src/js/experience.js`, in
source order. `_initPostProcessing` contains four `await import(...)`
expressions (lines 729-732) but is not declared `async`; no other method
uses `await`. -/
def experienceMethods : List JsMethodDecl :=
  [⟨"constructor", false, false⟩,
   ⟨"_initRenderer", false, false⟩,
   ⟨"_initCamera", false, false⟩,
   ⟨"_initLights", false, false⟩,
   ⟨"_initGeometries", false, false⟩,
   ⟨"_initEventListeners", false, false⟩,
   ⟨"_getTorusVertexShader", false, false⟩,
   ⟨"_getTorusFragmentShader", false, false⟩,
   ⟨"_getWaveVertexShader", false, false⟩,
   ⟨"_getWaveFragmentShader", false, false⟩,
   ⟨"_getParticleVertexShader", false, false⟩,
   ⟨"_getParticleFragmentShader", false, false⟩,
   ⟨"_initShaders", false, false⟩,
   ⟨"_initParticleSystem", false, false⟩,
   ⟨"_initPostProcessing", false, true⟩,
   ⟨"_initScrollAnimations", false, false⟩,
   ⟨"_updateOnScroll", false, false⟩,
   ⟨"_updateParticles", false, false⟩,
   ⟨"_updateCamera", false, false⟩,
   ⟨"_updateMouseLight", false, false⟩,
   ⟨"_tick", false, false⟩,
   ⟨"_onResize", false, false⟩,
   ⟨"destroy", false, false⟩]

/-- ECMAScript module parsing: `experience.js` is loaded as a module (it has
top-level `import` declarations), and in module code `await` is a reserved
word, so an `await` expression inside a non-async function body is a
SyntaxError; the module then fails to parse and none of its bindings become
usable. -/
def moduleParses (ms : List JsMethodDecl) : Bool :=
  ms.all fun m => !m.hasAwait || m.isAsync

inductive JsError
  | syntaxError
deriving DecidableEq, Repr

/-- `new Experience(canvas)` as observed by `main.js`: available only when
the defining module evaluated successfully. -/
def constructExperience (canvas : ℕ) (w h : ℚ) : Except JsError EngineState :=
  if moduleParses experienceMethods then
    .ok (constructedState canvas w h)
  else
    .error .syntaxError

/-- The mathematical functions `_initParticleSystem` uses (`Math.sqrt`,
`Math.cos`, `Math.sin`, `Math.PI`), abstracted with exactly the properties
of their real counterparts that the containment invariant rests on. -/
structure MathOps where
  sqrt : ℚ → ℚ
  cos : ℚ → ℚ
  sin : ℚ → ℚ
  pi : ℚ
  cos_sq_add_sin_sq : ∀ t, cos t ^ 2 + sin t ^ 2 = 1
  sqrt_nonneg : ∀ u, 0 ≤ u → 0 ≤ sqrt u
  sqrt_le_one : ∀ u, 0 ≤ u → u < 1 → sqrt u ≤ 1

/-- `const count = 80000` in `_initParticleSystem`. -/
def particleCount : ℕ := 80000

/-- `const arms = 3`. -/
def arms : ℕ := 3

/-- The loop body of `_initParticleSystem` draws ten `Math.random()` samples
per particle, in this order: radius, arm index, theta, y, scale, three
randomness components, phase, color choice. `rand` is the sample stream. -/
def particleR (M : MathOps) (rand : ℕ → ℚ) (i : ℕ) : ℚ :=
  M.sqrt (rand (10 * i)) * 5

def particleArmIndex (rand : ℕ → ℚ) (i : ℕ) : ℤ :=
  ⌊rand (10 * i + 1) * (arms : ℚ)⌋

def particleTheta (M : MathOps) (rand : ℕ → ℚ) (i : ℕ) : ℚ :=
  rand (10 * i + 2) * M.pi * 2
    + ((particleArmIndex rand i : ℚ) / (arms : ℚ)) * M.pi * 2
    + particleR M rand i * (1/2)

def particlePos (M : MathOps) (rand : ℕ → ℚ) (i : ℕ) : V3 :=
  ⟨M.cos (particleTheta M rand i) * particleR M rand i,
   (rand (10 * i + 3) - 1/2) * 2,
   M.sin (particleTheta M rand i) * particleR M rand i⟩

def particleScale (rand : ℕ → ℚ) (i : ℕ) : ℚ :=
  rand (10 * i + 4) * (3/2) + 1/2

def particleRandomness (rand : ℕ → ℚ) (i : ℕ) : V3 :=
  ⟨(rand (10 * i + 5) - 1/2) * 2, (rand (10 * i + 6) - 1/2) * 2, (rand (10 * i + 7) - 1/2) * 2⟩

def particlePhase (M : MathOps) (rand : ℕ → ℚ) (i : ℕ) : ℚ :=
  rand (10 * i + 8) * M.pi * 2

/-- The four-color palette of `_initParticleSystem`. -/
def palette : List (ℚ × ℚ × ℚ) :=
  [(1/2, 0, 4/5), (0, 1/2, 1), (1, 0, 3/5), (1, 1, 1)]

def particleColor (rand : ℕ → ℚ) (i : ℕ) : ℚ × ℚ × ℚ :=
  palette.getD (⌊rand (10 * i + 9) * (palette.length : ℚ)⌋.toNat) (0, 0, 0)

/-- The flat `positions` attribute array (3 floats per particle). -/
def positionsArray (M : MathOps) (rand : ℕ → ℚ) : List ℚ :=
  (List.range particleCount).flatMap fun i =>
    [(particlePos M rand i).x, (particlePos M rand i).y, (particlePos M rand i).z]

def scalesArray (rand : ℕ → ℚ) : List ℚ :=
  (List.range particleCount).map (particleScale rand)

def randomnessArray (rand : ℕ → ℚ) : List ℚ :=
  (List.range particleCount).flatMap fun i =>
    [(particleRandomness rand i).x, (particleRandomness rand i).y, (particleRandomness rand i).z]

def phasesArray (M : MathOps) (rand : ℕ → ℚ) : List ℚ :=
  (List.range particleCount).map (particlePhase M rand)

def colorsArray (rand : ℕ → ℚ) : List ℚ :=
  (List.range particleCount).flatMap fun i =>
    [(particleColor rand i).1, (particleColor rand i).2.1, (particleColor rand i).2.2]

/-- The vertical span covered by the five section groups: greatest group Y
minus least group Y. -/
def sectionSpan (s : EngineState) : ℚ :=
  s.groupYs.foldl max 0 - s.groupYs.foldl min 0

/-- The per-tick damped pointer-follow subsystem: each tick runs
`_updateCamera` then `_updateMouseLight` (the other tick stages do not touch
the camera X or the light position). -/
def damped (s0 : EngineState) : ℕ → EngineState
  | 0 => s0
  | n + 1 => updateMouseLight (updateCamera (damped s0 n))

/-- A concrete `MathOps` instance used to exercise hypotheses on a concrete
input. -/
def trivialMathOps : MathOps where
  sqrt := fun _ => 0
  cos := fun _ => 1
  sin := fun _ => 0
  pi := 3
  cos_sq_add_sin_sq := by intro t; norm_num
  sqrt_nonneg := by intro u h; exact le_refl 0
  sqrt_le_one := by intro u h0 h1; norm_num

/-- The scene-visible fields that a tick must not change when the mesh
handles are unset: meshes, scroll state, animated scalars, listeners,
triggers, composer, plus the elapsed time for the time equation. -/
def sceneFrame (s : EngineState) :
    Meshes × ℚ × ℚ × ℤ × List ℚ × ℚ × ℚ × EventTarget × List Trigger × Option Composer × ℚ :=
  (s.meshes, s.scrollProgress, s.scrollY, s.currentSection, s.barHeights,
   s.waveAmplitude, s.contactSphereScale, s.window, s.scrollTriggers, s.composer, s.time)

/-- Whether a material is one of the custom `ShaderMaterial`s. -/
def isShaderMat : Material → Bool
  | .shader _ => true
  | _ => false

/-- C1: the method `_initPostProcessing` contains four `await import(...)`
expressions but is not declared `async`, which is invalid JavaScript in
module code; the module therefore fails to evaluate, so for every canvas
argument `new Experience(canvas)` cannot complete normally. -/
theorem construct_always_fails (canvas : ℕ) (w h : ℚ) :
    constructExperience canvas w h = Except.error JsError.syntaxError := by
  have hparse : moduleParses experienceMethods = false := by decide
  simp [constructExperience, hparse]

/-- C2: the scroll listener computes a progress that is exactly 0 whenever
the document scroll extent `scrollHeight - innerHeight` is nonpositive (no
division by zero), and lies in [0, 1] whenever the extent is positive and
`scrollY` lies in `[0, extent]`. -/
theorem scrollProgress_bounds (s : EngineState) (sy ih sh : ℚ) :
    (sh - ih ≤ 0 → (onScroll sy ih sh s).scrollProgress = 0) ∧
    (0 < sh - ih → 0 ≤ sy → sy ≤ sh - ih →
      0 ≤ (onScroll sy ih sh s).scrollProgress ∧ (onScroll sy ih sh s).scrollProgress ≤ 1) := by
  constructor
  · intro hle
    simp only [onScroll]
    rw [if_neg (by linarith)]
  · intro hpos h0 h1
    simp only [onScroll]
    rw [if_pos hpos]
    refine ⟨div_nonneg h0 (le_of_lt hpos), ?_⟩
    rw [div_le_one hpos]
    exact h1

/-- Witness for C2 at concrete inputs: extent 0 gives progress 0; with
extent 500 and scrollY 50 the progress is within bounds. -/
theorem scrollProgress_bounds_witness :
    (onScroll 50 600 600 (initState 0 800 600)).scrollProgress = 0 ∧
    (0 ≤ (onScroll 50 600 1100 (initState 0 800 600)).scrollProgress ∧
      (onScroll 50 600 1100 (initState 0 800 600)).scrollProgress ≤ 1) :=
  ⟨(scrollProgress_bounds (initState 0 800 600) 50 600 600).1 (by norm_num),
   (scrollProgress_bounds (initState 0 800 600) 50 600 1100).2 (by norm_num) (by norm_num) (by norm_num)⟩

/-- C9 counterexample: the claim that the finite-difference divergence of
`curlNoise` stays below a small tolerance over a sampled grid fails: at the
grid point (1.15, 0.25, 0.25) the estimate is at least 100 (the field's own
components are of order 1). -/
theorem curlNoise_divergence_large_cex :
    (⟨23/20, 1/4, 1/4⟩ : V3) ∈ sampleGrid ∧
    100 ≤ divergenceEstimate ⟨23/20, 1/4, 1/4⟩ :=
  ⟨by decide, by decide⟩

/-- C9 amended: `curlNoise` assembles the central differences of a single
scalar noise as the permuted gradient `(dn/dy, dn/dz, dn/dx)`, which is not
a curl and not approximately divergence-free: on the sampled grid its
finite-difference divergence estimate reaches at least 100. -/
theorem curlNoise_permuted_gradient :
    (∀ p : V3, curlNoise p = ⟨dYcentral p, dZcentral p, dXcentral p⟩) ∧
    ∃ q ∈ sampleGrid, 100 ≤ |divergenceEstimate q| := by
  refine ⟨fun p => rfl, ⟨⟨23/20, 1/4, 1/4⟩, by decide, by decide⟩⟩

/-- C4: the full-document trigger sets camera Y to `progress * -40`, and 40
is the span of the five section groups at y = 0, -10, -20, -30, -40; at
progress 1 the camera Y is -40 and the contact trigger's target scale is
2.5. -/
theorem camera_linear_in_progress (c : ℕ) (w h p : ℚ) (s : EngineState)
    (hp0 : 0 ≤ p) (hp1 : p ≤ 1) :
    (initState c w h).groupYs = [0, -10, -20, -30, -40] ∧
    sectionSpan (initState c w h) = 40 ∧
    (applyTrigger .cameraScroll p s).cameraPos.y = p * (-(sectionSpan (initState c w h))) ∧
    (applyTrigger .cameraScroll 1 s).cameraPos.y = -40 ∧
    (applyTrigger .contactScale 1 s).contactSphereScale = 5/2 := by
  have hspan : sectionSpan (initState c w h) = 40 := by
    norm_num [sectionSpan, initState, List.foldl, max_def, min_def]
  refine ⟨rfl, hspan, ?_, ?_, ?_⟩
  · rw [hspan]
    simp [applyTrigger]
  · norm_num [applyTrigger]
  · norm_num [applyTrigger, contactScaleAt]

/-- Witness for C4 at progress one half. -/
theorem camera_linear_in_progress_witness :
    (applyTrigger .cameraScroll (1/2) (initState 0 800 600)).cameraPos.y
      = (1/2) * (-(sectionSpan (initState 0 800 600))) :=
  (camera_linear_in_progress 0 800 600 (1/2) (initState 0 800 600)
    (by norm_num) (by norm_num)).2.2.1

/-- Each damped step: one `_updateCamera` then one `_updateMouseLight`
leaves the pointer untouched and moves camera X and light X by their
damping factors toward the targets. -/
theorem damped_step_fields (s : EngineState) :
    (updateMouseLight (updateCamera s)).mouse = s.mouse ∧
    (updateMouseLight (updateCamera s)).cameraPos.x
      = s.cameraPos.x + (s.mouse.x * (1/2) - s.cameraPos.x) * (1/20) ∧
    (updateMouseLight (updateCamera s)).mouseLightPos.x
      = s.mouseLightPos.x + (s.mouse.x * 8 - s.mouseLightPos.x) * (2/25) :=
  ⟨rfl, rfl, rfl⟩

/-- Invariant of the damped iteration with the pointer held at (1, 1):
pointer unchanged, camera X below 0.5, light X below 8. -/
theorem damped_invariant (s : EngineState) (hm : s.mouse = ⟨1, 1⟩)
    (hc : s.cameraPos.x < 1/2) (hl : s.mouseLightPos.x < 8) :
    ∀ n, (damped s n).mouse = (⟨1, 1⟩ : V2) ∧
      (damped s n).cameraPos.x < 1/2 ∧ (damped s n).mouseLightPos.x < 8 := by
  intro n
  induction n with
  | zero => exact ⟨hm, hc, hl⟩
  | succ k ih =>
    obtain ⟨im, ic, il⟩ := ih
    have h1 : (damped s (k+1)).mouse = (damped s k).mouse := rfl
    have h2 : (damped s (k+1)).cameraPos.x
        = (damped s k).cameraPos.x
          + ((damped s k).mouse.x * (1/2) - (damped s k).cameraPos.x) * (1/20) := rfl
    have h3 : (damped s (k+1)).mouseLightPos.x
        = (damped s k).mouseLightPos.x
          + ((damped s k).mouse.x * 8 - (damped s k).mouseLightPos.x) * (2/25) := rfl
    have hx : (damped s k).mouse.x = 1 := by rw [im]
    refine ⟨by rw [h1, im], ?_, ?_⟩
    · rw [h2, hx]
      linarith
    · rw [h3, hx]
      linarith

/-- C10: with the pointer held at normalized (1, 1), the per-tick damped
updates (factor 0.05 for the camera, 0.08 for the light) drive camera X
toward 0.5 and light X toward 8 strictly monotonically, never overshooting,
with the remaining error contracting by the fixed factors 0.95 and 0.92. -/
theorem pointer_damping_monotone (s : EngineState)
    (hm : s.mouse = ⟨1, 1⟩) (hc : s.cameraPos.x < 1/2) (hl : s.mouseLightPos.x < 8) (n : ℕ) :
    ((damped s n).cameraPos.x < (damped s (n+1)).cameraPos.x ∧
     (damped s (n+1)).cameraPos.x < 1/2 ∧
     1/2 - (damped s (n+1)).cameraPos.x = (19/20) * (1/2 - (damped s n).cameraPos.x)) ∧
    ((damped s n).mouseLightPos.x < (damped s (n+1)).mouseLightPos.x ∧
     (damped s (n+1)).mouseLightPos.x < 8 ∧
     8 - (damped s (n+1)).mouseLightPos.x = (23/25) * (8 - (damped s n).mouseLightPos.x)) := by
  obtain ⟨im, ic, il⟩ := damped_invariant s hm hc hl n
  obtain ⟨_, ic1, il1⟩ := damped_invariant s hm hc hl (n+1)
  have hx : (damped s n).mouse.x = 1 := by rw [im]
  have h2 : (damped s (n+1)).cameraPos.x
      = (damped s n).cameraPos.x
        + ((damped s n).mouse.x * (1/2) - (damped s n).cameraPos.x) * (1/20) := rfl
  have h3 : (damped s (n+1)).mouseLightPos.x
      = (damped s n).mouseLightPos.x
        + ((damped s n).mouse.x * 8 - (damped s n).mouseLightPos.x) * (2/25) := rfl
  rw [h2, h3, hx]
  refine ⟨⟨by linarith, by linarith, by ring⟩, ⟨by linarith, by linarith, by ring⟩⟩

/-- Witness for C10: pixel pointer (800, 0) on an 800 x 600 viewport
normalises to (1, 1); one damped step from the fresh state. -/
theorem pointer_damping_monotone_witness :
    ((damped (onMouseMove 800 0 (initState 0 800 600)) 0).cameraPos.x
       < (damped (onMouseMove 800 0 (initState 0 800 600)) (0+1)).cameraPos.x ∧
     (damped (onMouseMove 800 0 (initState 0 800 600)) (0+1)).cameraPos.x < 1/2 ∧
     1/2 - (damped (onMouseMove 800 0 (initState 0 800 600)) (0+1)).cameraPos.x
       = (19/20) * (1/2 - (damped (onMouseMove 800 0 (initState 0 800 600)) 0).cameraPos.x)) ∧
    ((damped (onMouseMove 800 0 (initState 0 800 600)) 0).mouseLightPos.x
       < (damped (onMouseMove 800 0 (initState 0 800 600)) (0+1)).mouseLightPos.x ∧
     (damped (onMouseMove 800 0 (initState 0 800 600)) (0+1)).mouseLightPos.x < 8 ∧
     8 - (damped (onMouseMove 800 0 (initState 0 800 600)) (0+1)).mouseLightPos.x
       = (23/25) * (8 - (damped (onMouseMove 800 0 (initState 0 800 600)) 0).mouseLightPos.x)) :=
  pointer_damping_monotone (onMouseMove 800 0 (initState 0 800 600))
    (by decide) (by decide) (by decide) 0

theorem foldl_max_init_le (l : List ℕ) : ∀ init, init ≤ l.foldl max init := by
  induction l with
  | nil => intro init; exact le_refl _
  | cons b l ih => intro init; exact le_trans (le_max_left init b) (ih (max init b))

theorem le_foldl_max (l : List ℕ) : ∀ (init a : ℕ), a ∈ l → a ≤ l.foldl max init := by
  induction l with
  | nil => intro _ a h; cases h
  | cons b l ih =>
    intro init a h
    rcases List.mem_cons.mp h with rfl | h2
    · exact le_trans (le_max_right init a) (foldl_max_init_le l (max init a))
    · exact ih (max init b) a h2

/-- Removing a handler id strictly larger than every registered id removes
nothing: the fresh `.bind` wrapper matches no registered listener. -/
theorem removeListener_fresh (w : EventTarget) (k : EventKind) :
    w.removeListener k (some ((w.regs.map Prod.snd).foldl max 0 + 1)) = w := by
  obtain ⟨regs⟩ := w
  simp only [EventTarget.removeListener]
  congr 1
  apply List.filter_eq_self.mpr
  intro r hr
  have hle : r.2 ≤ (regs.map Prod.snd).foldl max 0 :=
    le_foldl_max _ 0 r.2 (List.mem_map_of_mem Prod.snd hr)
  have hne : r.2 ≠ (regs.map Prod.snd).foldl max 0 + 1 := by omega
  simp [hne]

theorem removeListener_none (w : EventTarget) (k : EventKind) :
    w.removeListener k none = w := rfl

/-- What `destroy` does to the state, as one record update. -/
theorem destroy_eq (s : EngineState) :
    destroy s = { s with animFrameId := none, scrollTriggers := [], rendererDisposed := true } := by
  rcases h : s.animFrameId with _ | id <;>
    simp [destroy, h, freshBoundId, removeListener_fresh, removeListener_none]

/-- C6 counterexample: after construction and `destroy()`, the scroll
listener (handler id 2, registered by `_initEventListeners`) is still
attached to the window, so it can still fire — contradicting the claim that
destroy detaches all registered input listeners. -/
theorem destroy_scroll_listener_remains_cex :
    (EventKind.scroll, 2) ∈ (destroy (constructedState 0 800 600)).window.regs ∧
    (destroy (constructedState 0 800 600)).window.regs
      = [(EventKind.resize, 0), (EventKind.mousemove, 1), (EventKind.scroll, 2)] :=
  ⟨by decide, by decide⟩

/-- C6 amended: `destroy()` cancels the scheduled animation frame, kills
all scroll triggers, and is idempotent; but it leaves the window listener
registry exactly as it was (the resize removal passes a fresh `.bind`
wrapper, the mousemove removal passes the undefined `_onMouseMove`, and the
scroll listener is never removed), so the input listeners remain attached. -/
theorem destroy_cancels_ticks_idempotent (s : EngineState) :
    (destroy s).animFrameId = none ∧
    (destroy s).scrollTriggers = [] ∧
    (destroy s).window = s.window ∧
    destroy (destroy s) = destroy s := by
  simp [destroy_eq]

theorem applyTrigger_scrollTriggers (t : Trigger) (p : ℚ) (s : EngineState) :
    (applyTrigger t p s).scrollTriggers = s.scrollTriggers := by
  cases t <;> rfl

theorem applyTrigger_barHeights (t : Trigger) (p : ℚ) (s : EngineState) :
    (applyTrigger t p s).barHeights = s.barHeights := by
  cases t <;> rfl

theorem foldTriggers_cons (t : Trigger) (l : List Trigger) (p : ℚ) (s : EngineState) :
    foldTriggers (t :: l) p s = foldTriggers l p (applyTrigger t p s) := rfl

theorem foldTriggers_scrollTriggers (l : List Trigger) (p : ℚ) (s : EngineState) :
    (foldTriggers l p s).scrollTriggers = s.scrollTriggers := by
  induction l generalizing s with
  | nil => rfl
  | cons t l ih => rw [foldTriggers_cons, ih, applyTrigger_scrollTriggers]

theorem foldTriggers_barHeights (l : List Trigger) (p : ℚ) (s : EngineState) :
    (foldTriggers l p s).barHeights = s.barHeights := by
  induction l generalizing s with
  | nil => rfl
  | cons t l ih => rw [foldTriggers_cons, ih, applyTrigger_barHeights]

/-- Scrubbing a trigger list to progress `p` leaves the wave amplitude at
`waveAmplitudeAt p` when the showcase trigger is present, otherwise
untouched. -/
theorem foldTriggers_wave (l : List Trigger) (p : ℚ) (s : EngineState) :
    (foldTriggers l p s).waveAmplitude
      = if Trigger.showcaseWave ∈ l then waveAmplitudeAt p else s.waveAmplitude := by
  induction l generalizing s with
  | nil => simp [foldTriggers]
  | cons t l ih =>
    rw [foldTriggers_cons, ih]
    cases t <;> simp [applyTrigger, List.mem_cons]

/-- Scrubbing a trigger list to progress `p` leaves the contact sphere scale
at `contactScaleAt p` when the contact trigger is present, otherwise
untouched. -/
theorem foldTriggers_contact (l : List Trigger) (p : ℚ) (s : EngineState) :
    (foldTriggers l p s).contactSphereScale
      = if Trigger.contactScale ∈ l then contactScaleAt p else s.contactSphereScale := by
  induction l generalizing s with
  | nil => simp [foldTriggers]
  | cons t l ih =>
    rw [foldTriggers_cons, ih]
    cases t <;> simp [applyTrigger, List.mem_cons]

/-- C7: the scrubbed targets (wave amplitude, bar heights, contact sphere
scale) are functions of the current progress only: re-scrubbing after any
earlier progress value gives the same targets as scrubbing directly, and
driving progress through 0, 0.5, 0.2 ends in the same target state as
driving it directly to 0.2. -/
theorem scrub_targets_memoryless :
    (∀ (p q : ℚ) (s : EngineState),
      scrubTargets (applyProgress p (applyProgress q s)) = scrubTargets (applyProgress p s)) ∧
    (∀ s : EngineState,
      scrubTargets (driveSequence [0, 1/2, 1/5] s) = scrubTargets (applyProgress (1/5) s)) := by
  have key : ∀ (p q : ℚ) (s : EngineState),
      scrubTargets (applyProgress p (applyProgress q s)) = scrubTargets (applyProgress p s) := by
    intro p q s
    unfold scrubTargets applyProgress
    rw [foldTriggers_scrollTriggers]
    rw [Prod.ext_iff, Prod.ext_iff]
    refine ⟨?_, ?_, ?_⟩
    · simp only [foldTriggers_wave]
      by_cases hmem : Trigger.showcaseWave ∈ s.scrollTriggers
      · simp [hmem]
      · simp [hmem]
    · simp only [foldTriggers_barHeights]
    · simp only [foldTriggers_contact]
      by_cases hmem : Trigger.contactScale ∈ s.scrollTriggers
      · simp [hmem]
      · simp [hmem]
  refine ⟨key, ?_⟩
  intro s
  have hseq : driveSequence [0, 1/2, 1/5] s
      = applyProgress (1/5) (applyProgress (1/2) (applyProgress 0 s)) := rfl
  rw [hseq, key, key]

theorem foldl_overMeshes {α : Type} (g : α → Meshes → Meshes) (l : List α) (s : EngineState) :
    l.foldl (fun st a => overMeshes (g a) st) s
      = overMeshes (fun ms => l.foldl (fun m a => g a m) ms) s := by
  induction l generalizing s with
  | nil => rfl
  | cons a l ih => simp only [List.foldl_cons, ih]; rfl

theorem rotateHero_none (t : ℚ) (s : EngineState) (h : s.heroMesh = none) :
    rotateHero t s = s := by
  simp [rotateHero, h]

theorem rotateFeatures_none (d : ℚ) (s : EngineState) (h : s.featuresMeshes = none) :
    rotateFeatures d s = s := by
  simp [rotateFeatures, h]

theorem rotateContactSphere_none (d : ℚ) (s : EngineState) (h : s.contactSphere = none) :
    rotateContactSphere d s = s := by
  simp [rotateContactSphere, h]

theorem updateOnScroll_none (s : EngineState) (hw : s.waveMesh = none)
    (hb : s.statsBars = none) (hc : s.contactSphere = none) :
    updateOnScroll s = s := by
  simp [updateOnScroll, hw, hb, hc]

theorem updateParticles_sceneFrame (t d : ℚ) (s : EngineState) :
    sceneFrame (updateParticles t d s) = sceneFrame s := by
  rcases h1 : s.particleSystem with _ | r <;>
    rcases h2 : s.particleShaderMaterial with _ | u <;>
      simp [updateParticles, h1, h2, sceneFrame]

theorem updateHeroUniforms_sceneFrame (t : ℚ) (s : EngineState) :
    sceneFrame (updateHeroUniforms t s) = sceneFrame s := by
  rcases h : s.heroShaderMaterial with _ | u <;> simp [updateHeroUniforms, h, sceneFrame]

theorem updateWaveUniforms_sceneFrame (t : ℚ) (s : EngineState) :
    sceneFrame (updateWaveUniforms t s) = sceneFrame s := by
  rcases h : s.waveShaderMaterial with _ | u <;> simp [updateWaveUniforms, h, sceneFrame]

theorem updateChromatic_sceneFrame (s : EngineState) :
    sceneFrame (updateChromatic s) = sceneFrame s := by
  rcases h : s.chromaticAberrationPass with _ | c <;> simp [updateChromatic, h, sceneFrame]

/-- The tick pipeline written as one composition (definitional). -/
theorem tick_eq (dt : ℚ) (s : EngineState) :
    tick dt s
      = updateChromatic (updateWaveUniforms (s.time + dt) (updateHeroUniforms (s.time + dt)
          (updateParticles (s.time + dt) dt (updateOnScroll (rotateContactSphere dt
            (rotateFeatures dt (rotateHero (s.time + dt) (updateMouseLight (updateCamera
              { s with animFrameId := some s.nextFrameId, nextFrameId := s.nextFrameId + 1,
                       time := s.time + dt }))))))))) := rfl

/-- With all mesh handles unset, the guarded tick stages collapse. -/
theorem tick_collapse (dt : ℚ) (s : EngineState)
    (h1 : s.heroMesh = none) (h2 : s.featuresMeshes = none) (h3 : s.waveMesh = none)
    (h4 : s.statsBars = none) (h5 : s.contactSphere = none) :
    tick dt s
      = updateChromatic (updateWaveUniforms (s.time + dt) (updateHeroUniforms (s.time + dt)
          (updateParticles (s.time + dt) dt (updateMouseLight (updateCamera
            { s with animFrameId := some s.nextFrameId, nextFrameId := s.nextFrameId + 1,
                     time := s.time + dt }))))) := by
  rw [tick_eq, rotateHero_none, rotateFeatures_none, rotateContactSphere_none,
      updateOnScroll_none]
  all_goals first | exact h1 | exact h2 | exact h3 | exact h4 | exact h5

/-- With all mesh handles unset, a tick leaves the whole scene frame
unchanged except for advancing the elapsed time by `delta`. -/
theorem tick_frame (dt : ℚ) (s : EngineState)
    (h1 : s.heroMesh = none) (h2 : s.featuresMeshes = none) (h3 : s.waveMesh = none)
    (h4 : s.statsBars = none) (h5 : s.contactSphere = none) :
    sceneFrame (tick dt s)
      = (s.meshes, s.scrollProgress, s.scrollY, s.currentSection, s.barHeights,
         s.waveAmplitude, s.contactSphereScale, s.window, s.scrollTriggers, s.composer,
         s.time + dt) := by
  rw [tick_collapse dt s h1 h2 h3 h4 h5, updateChromatic_sceneFrame,
      updateWaveUniforms_sceneFrame, updateHeroUniforms_sceneFrame, updateParticles_sceneFrame]
  rfl

/-- C3: in the constructed state no shader material was ever installed
(`_initShaders` early-returns on the never-assigned `torusKnot` /
`showcasePlane`), all mesh handles read by the tick are unset, and a tick
leaves every mesh (transform, scale, material), the scroll state, the
animated scalars, the listeners, the triggers and the composer unchanged —
it only advances time and mutates camera, mouse light, particle rotation
and uniforms. -/
theorem tick_preserves_meshes (c : ℕ) (w h dt : ℚ) (s : EngineState)
    (h1 : s.heroMesh = none) (h2 : s.featuresMeshes = none) (h3 : s.waveMesh = none)
    (h4 : s.statsBars = none) (h5 : s.contactSphere = none) :
    ((initState c w h).torusKnot = none ∧ (initState c w h).showcasePlane = none ∧
     (initState c w h).heroMesh = none ∧ (initState c w h).featuresMeshes = none ∧
     (initState c w h).waveMesh = none ∧ (initState c w h).statsBars = none ∧
     (initState c w h).contactSphere = none) ∧
    initShaders (initState c w h) = initState c w h ∧
    ((initState c w h).meshes = initialMeshes ∧
      ∀ m ∈ initialMeshes.materials, isShaderMat m = false) ∧
    ((tick dt s).meshes = s.meshes ∧
     (tick dt s).scrollProgress = s.scrollProgress ∧
     (tick dt s).scrollY = s.scrollY ∧
     (tick dt s).currentSection = s.currentSection ∧
     (tick dt s).barHeights = s.barHeights ∧
     (tick dt s).waveAmplitude = s.waveAmplitude ∧
     (tick dt s).contactSphereScale = s.contactSphereScale ∧
     (tick dt s).window = s.window ∧
     (tick dt s).scrollTriggers = s.scrollTriggers ∧
     (tick dt s).composer = s.composer ∧
     (tick dt s).time = s.time + dt) := by
  have hfr := tick_frame dt s h1 h2 h3 h4 h5
  simp only [sceneFrame, Prod.mk.injEq] at hfr
  obtain ⟨e1, e2, e3, e4, e5, e6, e7, e8, e9, e10, e11⟩ := hfr
  refine ⟨⟨rfl, rfl, rfl, rfl, rfl, rfl, rfl⟩, rfl, ⟨rfl, by decide⟩,
          e1, e2, e3, e4, e5, e6, e7, e8, e9, e10, e11⟩

/-- Witness for C3: one tick from the freshly initialised engine state. -/
theorem tick_preserves_meshes_witness :
    (tick (1/60) (initState 0 800 600)).meshes = (initState 0 800 600).meshes ∧
    (tick (1/60) (initState 0 800 600)).barHeights = (initState 0 800 600).barHeights :=
  ⟨(tick_preserves_meshes 0 800 600 (1/60) (initState 0 800 600)
      rfl rfl rfl rfl rfl).2.2.2.1,
   (tick_preserves_meshes 0 800 600 (1/60) (initState 0 800 600)
      rfl rfl rfl rfl rfl).2.2.2.2.2.2.2.1⟩

theorem rotateHero_composer (t : ℚ) (s : EngineState) :
    (rotateHero t s).composer = s.composer := by
  rcases h : s.heroMesh with _ | k <;> simp [rotateHero, h, overMeshes]

theorem overMeshes_statsBars (g : Meshes → Meshes) (s : EngineState) :
    (overMeshes g s).statsBars = s.statsBars := rfl

theorem rotateFeatures_composer (d : ℚ) (s : EngineState) :
    (rotateFeatures d s).composer = s.composer := by
  rcases h : s.featuresMeshes with _ | ks
  · simp [rotateFeatures, h]
  · simp only [rotateFeatures, h]
    rw [foldl_overMeshes]
    rfl

theorem rotateContactSphere_composer (d : ℚ) (s : EngineState) :
    (rotateContactSphere d s).composer = s.composer := by
  rcases h : s.contactSphere with _ | k <;> simp [rotateContactSphere, h, overMeshes]

theorem updateOnScroll_composer (s : EngineState) :
    (updateOnScroll s).composer = s.composer := by
  rcases ha : s.waveMesh with _ | a <;>
    rcases hb : s.contactSphere with _ | b <;>
      rcases hc : s.statsBars with _ | c <;>
        simp only [updateOnScroll, ha, hb, hc, overMeshes_statsBars] <;>
        first
          | rfl
          | (rw [foldl_overMeshes]; rfl)

theorem updateParticles_composer (t d : ℚ) (s : EngineState) :
    (updateParticles t d s).composer = s.composer := by
  rcases h1 : s.particleSystem with _ | r <;>
    rcases h2 : s.particleShaderMaterial with _ | u <;>
      simp [updateParticles, h1, h2]

theorem updateHeroUniforms_composer (t : ℚ) (s : EngineState) :
    (updateHeroUniforms t s).composer = s.composer := by
  rcases h : s.heroShaderMaterial with _ | u <;> simp [updateHeroUniforms, h]

theorem updateWaveUniforms_composer (t : ℚ) (s : EngineState) :
    (updateWaveUniforms t s).composer = s.composer := by
  rcases h : s.waveShaderMaterial with _ | u <;> simp [updateWaveUniforms, h]

theorem updateChromatic_composer (s : EngineState) :
    (updateChromatic s).composer = s.composer := by
  rcases h : s.chromaticAberrationPass with _ | c <;> simp [updateChromatic, h]

/-- A tick never creates or destroys the composer. -/
theorem tick_composer (dt : ℚ) (s : EngineState) :
    (tick dt s).composer = s.composer := by
  rw [tick_eq, updateChromatic_composer, updateWaveUniforms_composer,
      updateHeroUniforms_composer, updateParticles_composer, updateOnScroll_composer,
      rotateContactSphere_composer, rotateFeatures_composer, rotateHero_composer]
  rfl

/-- C5 counterexample: with the bloom module unavailable, initialization
logs the warning and continues, but the subsequent tick does NOT render the
scene: `_tick` renders only through `this.composer`, and no composer was
created, so base scene rendering is not functional. -/
theorem postprocessing_missing_no_render_cex :
    (initPostProcessing ⟨true, true, false, true⟩ (constructedState 0 800 600)).2 = true ∧
    tickRenders (tick (1/60)
      (initPostProcessing ⟨true, true, false, true⟩ (constructedState 0 800 600)).1) = false := by
  constructor
  · rfl
  · rw [tickRenders, tick_composer]
    rfl

/-- C5 amended: if any post-processing module is unavailable, the engine
logs the warning and continues without error, but no composer is created
and every subsequent tick performs no rendering at all (rendering happens
only through the composer; there is no base-scene fallback). -/
theorem postprocessing_degraded_no_render (mods : PostModules) (s : EngineState)
    (hmiss : mods.effectComposer = false ∨ mods.renderPass = false ∨
      mods.unrealBloomPass = false ∨ mods.shaderPass = false) :
    (initPostProcessing mods s).2 = true ∧
    (initPostProcessing mods s).1 = s ∧
    (s.composer = none → ∀ delta : ℚ,
      tickRenders (tick delta (initPostProcessing mods s).1) = false) := by
  have hcond : (mods.effectComposer && mods.renderPass && mods.unrealBloomPass && mods.shaderPass) = false := by
    rcases hmiss with h | h | h | h <;> simp [h]
  refine ⟨?_, ?_, ?_⟩
  · simp [initPostProcessing, hcond]
  · simp [initPostProcessing, hcond]
  · intro hc delta
    have h1 : (initPostProcessing mods s).1 = s := by simp [initPostProcessing, hcond]
    rw [h1, tickRenders, tick_composer, hc]
    rfl

/-- Witness for C5 with the bloom pass missing on the fresh state. -/
theorem postprocessing_degraded_no_render_witness :
    (initPostProcessing ⟨true, true, false, true⟩ (initState 0 800 600)).2 = true ∧
    tickRenders (tick (1/60)
      (initPostProcessing ⟨true, true, false, true⟩ (initState 0 800 600)).1) = false :=
  ⟨(postprocessing_degraded_no_render ⟨true, true, false, true⟩ (initState 0 800 600)
      (Or.inr (Or.inr (Or.inl rfl)))).1,
   (postprocessing_degraded_no_render ⟨true, true, false, true⟩ (initState 0 800 600)
      (Or.inr (Or.inr (Or.inl rfl)))).2.2 rfl (1/60)⟩

theorem length_flatMap_three {α β : Type} (l : List α) (f g k : α → β) :
    (l.flatMap fun a => [f a, g a, k a]).length = 3 * l.length := by
  induction l with
  | nil => rfl
  | cons a l ih =>
    simp only [List.flatMap_cons, List.length_append, List.length_cons, ih]
    simp [Nat.mul_succ]
    omega

/-- C8: `_initParticleSystem` generates exactly 80000 records with matching
attribute array lengths (positions, randomness, colors of length 3N; scales
and phases of length N), and every particle position satisfies
X^2 + Z^2 <= 25 (spiral disk containment with R_max = 5). -/
theorem particle_buffer_invariants (M : MathOps) (rand : ℕ → ℚ)
    (hr : ∀ n, 0 ≤ rand n ∧ rand n < 1) :
    (positionsArray M rand).length = 3 * particleCount ∧
    (randomnessArray rand).length = 3 * particleCount ∧
    (colorsArray rand).length = 3 * particleCount ∧
    (scalesArray rand).length = particleCount ∧
    (phasesArray M rand).length = particleCount ∧
    ∀ i : ℕ, (particlePos M rand i).x ^ 2 + (particlePos M rand i).z ^ 2 ≤ 5 ^ 2 := by
  refine ⟨?_, ?_, ?_, ?_, ?_, ?_⟩
  · rw [positionsArray, length_flatMap_three, List.length_range]
  · rw [randomnessArray, length_flatMap_three, List.length_range]
  · rw [colorsArray, length_flatMap_three, List.length_range]
  · rw [scalesArray, List.length_map, List.length_range]
  · rw [phasesArray, List.length_map, List.length_range]
  · intro i
    obtain ⟨hr0, hr1⟩ := hr (10 * i)
    have hs0 : 0 ≤ M.sqrt (rand (10 * i)) := M.sqrt_nonneg _ hr0
    have hs1 : M.sqrt (rand (10 * i)) ≤ 1 := M.sqrt_le_one _ hr0 hr1
    have hcs := M.cos_sq_add_sin_sq (particleTheta M rand i)
    have hsq : M.sqrt (rand (10 * i)) ^ 2 ≤ 1 := by nlinarith
    simp only [particlePos, particleR]
    have key : (M.cos (particleTheta M rand i) * (M.sqrt (rand (10 * i)) * 5)) ^ 2
        + (M.sin (particleTheta M rand i) * (M.sqrt (rand (10 * i)) * 5)) ^ 2
        = 25 * (M.sqrt (rand (10 * i)) ^ 2)
            * (M.cos (particleTheta M rand i) ^ 2 + M.sin (particleTheta M rand i) ^ 2) := by
      ring
    rw [key, hcs]
    nlinarith [hsq]

/-- Witness for C8 with a concrete math interface and sample stream. -/
theorem particle_buffer_invariants_witness :
    (scalesArray (fun _ => 0)).length = particleCount ∧
    (particlePos trivialMathOps (fun _ => 0) 0).x ^ 2
        + (particlePos trivialMathOps (fun _ => 0) 0).z ^ 2 ≤ 5 ^ 2 :=
  ⟨(particle_buffer_invariants trivialMathOps (fun _ => 0)
      (fun _ => ⟨le_refl 0, by norm_num⟩)).2.2.2.1,
   (particle_buffer_invariants trivialMathOps (fun _ => 0)
      (fun _ => ⟨le_refl 0, by norm_num⟩)).2.2.2.2.2 0⟩

end Experience
